import Mathlib

/-!
Shallow embedding of
`src/Tetrahedral_remeshing/include/CGAL/Tetrahedral_remeshing/Remeshing_triangulation_3.h`
(CGAL tetrahedral remeshing triangulation: element converters, the default
remeshing visitor, and the two clone functions
`build_remeshing_triangulation` / `build_from_remeshing_triangulation`).

Per-element payload is modelled by explicit records; the Cartesian kernel
conversion (`CGAL::Cartesian_converter`, external to this repository) is a
function parameter `conv`; a C++ default-constructed target element is a
parameter (`vdflt` / `cdflt`), since the converters start from
`typename TDS_tgt::Vertex v_tgt;` / `typename TDS_tgt::Cell c_tgt;`.
-/

namespace CGAL

namespace Tetrahedral_remeshing

/-- Vertex payload, from the spec's data model (§3) and the fields the converters
access in the source: a point (under some kernel `P`), a feature-dimension tag
(`-1` if unset, else 0..3, cf. the comment on `set_dimension`), user info, and
the TDS time stamp (identity/versioning stamp). -/
structure VertexData (P : Type) where
  point : P
  dim : Int
  info : Int
  timeStamp : Int
  deriving Repr, DecidableEq

/-- Cell payload, from the spec's data model (§3) and the fields the converters
access in the source: a subdomain/region index, user info of type `I`, a
back-reference slot `inputCell` of type `R` (written by `c_tgt.input_cell() = c_src`),
and the TDS time stamp. -/
structure CellData (I R : Type) where
  subdomainIndex : Int
  info : I
  inputCell : R
  timeStamp : Int
  deriving Repr, DecidableEq

/-- The create operator of `internal::Vertex_converter` (source lines 130-145):
default-construct `v_tgt`, set its point to the converted source point, set its
time stamp to `-1`, and force its dimension to `3`. The source info is not read. -/
def internal.Vertex_converter.create {P Q : Type} (conv : P → Q)
    (vdflt : VertexData Q) (v_src : VertexData P) : VertexData Q :=
  { vdflt with point := conv v_src.point, timeStamp := -1, dim := 3 }

/-- The update operator of `internal::Vertex_converter` (source lines 147-160):
set the target's point to the converted source point and its dimension to `3`.
The time stamp and the target's info are not touched. -/
def internal.Vertex_converter.update {P Q : Type} (conv : P → Q)
    (v_src : VertexData P) (v_tgt : VertexData Q) : VertexData Q :=
  { v_tgt with point := conv v_src.point, dim := 3 }

/-- The create operator of `internal::Cell_converter` (source lines 167-174):
default-construct `c_tgt`, copy the subdomain index, set the time stamp to `-1`.
The info copy is commented out in the source; the back-reference is not written. -/
def internal.Cell_converter.create {I I' R R' : Type}
    (cdflt : CellData I' R') (c_src : CellData I R) : CellData I' R' :=
  { cdflt with subdomainIndex := c_src.subdomainIndex, timeStamp := -1 }

/-- The update operator of `internal::Cell_converter` (source lines 176-181):
copy the subdomain index only. -/
def internal.Cell_converter.update {I I' R R' : Type}
    (c_src : CellData I R) (c_tgt : CellData I' R') : CellData I' R' :=
  { c_tgt with subdomainIndex := c_src.subdomainIndex }

/-- The create operator of the public `Vertex_converter` (source lines 190-203):
default-construct `v_tgt`, set its point to the converted source point, set the
time stamp to `-1`, and set the target's dimension to `v_src.info()` (the source
comment reads: `-1 if unset, 0,1,2, or 3 if set`). The target's own info field is
never written. -/
def Vertex_converter.create {P Q : Type} (conv : P → Q)
    (vdflt : VertexData Q) (v_src : VertexData P) : VertexData Q :=
  { vdflt with point := conv v_src.point, timeStamp := -1, dim := v_src.info }

/-- The update operator of the public `Vertex_converter` (source lines 205-216):
set the target's point to the converted source point and its dimension to
`v_src.info()`. Time stamp and target info are not touched. -/
def Vertex_converter.update {P Q : Type} (conv : P → Q)
    (v_src : VertexData P) (v_tgt : VertexData Q) : VertexData Q :=
  { v_tgt with point := conv v_src.point, dim := v_src.info }

/-- The create operator of the public `Cell_converter` (source lines 223-230):
default-construct `c_tgt`, copy the info, store a back-reference to the source
cell (`c_tgt.input_cell() = c_src`, modelled through `ref`), and set the time
stamp to `-1`. The subdomain index is not copied. -/
def Cell_converter.create {I R R' : Type} (ref : CellData I R → R')
    (cdflt : CellData I R') (c_src : CellData I R) : CellData I R' :=
  { cdflt with info := c_src.info, inputCell := ref c_src, timeStamp := -1 }

/-- The update operator of the public `Cell_converter` (source lines 232-237):
copy the info and store the back-reference; nothing else is touched. -/
def Cell_converter.update {I R R' : Type} (ref : CellData I R → R')
    (c_src : CellData I R) (c_tgt : CellData I R') : CellData I R' :=
  { c_tgt with info := c_src.info, inputCell := ref c_src }

/-- One cell record of a triangulation data structure: its payload, the indices
of its 4 vertices (ordered), and the indices of its 4 neighbor cells (one
opposite each vertex). -/
structure CellRec (C : Type) where
  data : C
  vtx : Nat × Nat × Nat × Nat
  nbr : Nat × Nat × Nat × Nat
  deriving Repr, DecidableEq

/-- A triangulation data structure: vertices and cells, indexed by position. -/
structure Tds (V C : Type) where
  vertices : List V
  cells : List (CellRec C)
  deriving Repr, DecidableEq

/-- A triangulation: its data structure plus the index of its infinite vertex
(`set_infinite_vertex` / `infinite_vertex` in the source). -/
structure Triang (V C : Type) where
  tds : Tds V C
  infiniteVertex : Nat
  deriving Repr, DecidableEq

/-- Modelled from the spec: `Triangulation_data_structure_3::copy_tds` is CGAL
code not under `src/`. Per the spec (§4.2), it produces exactly one target
vertex per source vertex via the vertex converter's create operation and exactly
one target cell per source cell via the cell converter's create operation,
rewires all cell→vertex and cell↔cell adjacency to mirror the source exactly
under the canonical relabeling (the identity on indices here), and returns the
image of the vertex it was handed. -/
def copy_tds {V V' C C' : Type} (vconv : V → V') (cconv : C → C')
    (src : Tds V C) (v : Nat) : Tds V' C' × Nat :=
  ({ vertices := src.vertices.map vconv,
     cells := src.cells.map fun r => { data := cconv r.data, vtx := r.vtx, nbr := r.nbr } },
   v)

/-- Modelled from the spec: `Triangulation_3::clear` is CGAL code not under
`src/`; per the spec (§4.2) the in-place clone "first clears the target", i.e.
empties it of all prior vertices and cells. -/
def Triang.clear {V C : Type} (_t : Triang V C) : Triang V C :=
  { tds := { vertices := [], cells := [] }, infiniteVertex := 0 }

/-- `build_remeshing_triangulation` (source lines 241-256): clear the target,
then `copy_tds` from the source with the `internal` converters, seeded at the
source's infinite vertex, and make the returned vertex the target's infinite
vertex. -/
def build_remeshing_triangulation {P Q I I' R R' : Type} (conv : P → Q)
    (vdflt : VertexData Q) (cdflt : CellData I' R')
    (tr : Triang (VertexData P) (CellData I R))
    (remeshing_tr : Triang (VertexData Q) (CellData I' R')) :
    Triang (VertexData Q) (CellData I' R') :=
  let cleared := remeshing_tr.clear
  let res := copy_tds (internal.Vertex_converter.create conv vdflt)
      (internal.Cell_converter.create cdflt) tr.tds tr.infiniteVertex
  { cleared with tds := res.1, infiniteVertex := res.2 }

/-- `build_from_remeshing_triangulation` (source lines 258-274): the reverse
direction, same structure: clear the target, `copy_tds` with the `internal`
converters seeded at the remeshing triangulation's infinite vertex, set the
returned vertex as the target's infinite vertex. -/
def build_from_remeshing_triangulation {P Q I I' R R' : Type} (conv : Q → P)
    (vdflt : VertexData P) (cdflt : CellData I R)
    (remeshing_tr : Triang (VertexData Q) (CellData I' R'))
    (tr : Triang (VertexData P) (CellData I R)) :
    Triang (VertexData P) (CellData I R) :=
  let cleared := tr.clear
  let res := copy_tds (internal.Vertex_converter.create conv vdflt)
      (internal.Cell_converter.create cdflt) remeshing_tr.tds
      remeshing_tr.infiniteVertex
  { cleared with tds := res.1, infiniteVertex := res.2 }

/-- The `Default_remeshing_visitor` (source lines 43-59) has no data members. -/
structure Default_remeshing_visitor where
  deriving Repr, DecidableEq

/-- The five hook points the default visitor provides (source lines 46-58). -/
inductive RemeshingHookPoint
  | before_split
  | after_split
  | after_add_cell
  | before_flip
  | after_flip
  deriving Repr, DecidableEq

/-- The hook points `Default_remeshing_visitor` declares, in source order. -/
def Default_remeshing_visitor.hooks : List RemeshingHookPoint :=
  [.before_split, .after_split, .after_add_cell, .before_flip, .after_flip]

/-- Hook `before_split(tr, e)` (source lines 46-48): empty body. Each hook is
modelled as returning the visitor state and every argument it could have
mutated. -/
def Default_remeshing_visitor.before_split {Tr E : Type}
    (self : Default_remeshing_visitor) (tr : Tr) (e : E) :
    Default_remeshing_visitor × Tr × E :=
  (self, tr, e)

/-- Hook `after_split(tr, new_v)` (source lines 49-51): empty body. -/
def Default_remeshing_visitor.after_split {Tr VH : Type}
    (self : Default_remeshing_visitor) (tr : Tr) (new_v : VH) :
    Default_remeshing_visitor × Tr × VH :=
  (self, tr, new_v)

/-- Hook `after_add_cell(co, cn)` (source lines 52-54): empty body (`const`). -/
def Default_remeshing_visitor.after_add_cell {CO CN : Type}
    (self : Default_remeshing_visitor) (co : CO) (cn : CN) :
    Default_remeshing_visitor × CO × CN :=
  (self, co, cn)

/-- Hook `before_flip(c)` (source lines 55-56): empty body. -/
def Default_remeshing_visitor.before_flip {CH : Type}
    (self : Default_remeshing_visitor) (c : CH) :
    Default_remeshing_visitor × CH :=
  (self, c)

/-- Hook `after_flip(c)` (source lines 57-58): empty body. -/
def Default_remeshing_visitor.after_flip {CH : Type}
    (self : Default_remeshing_visitor) (c : CH) :
    Default_remeshing_visitor × CH :=
  (self, c)

/-- The two values of CGAL's concurrency tag. -/
inductive Concurrency_tag_kind
  | Sequential_tag
  | Parallel_tag
  deriving Repr, DecidableEq

/-- The two base kinds appearing in the instantiations of
`Triangulation_data_structure_3` inside `Remeshing_triangulation_3`. -/
inductive RemeshingBaseKind
  | RVb
  | RCb
  deriving Repr, DecidableEq

/-- The template arguments of an instantiation of
`Triangulation_data_structure_3<Vb, Cb, Concurrency_tag>`: two type arguments
make different instantiations exactly when they differ as argument tuples. -/
structure TdsArgs where
  vb : RemeshingBaseKind
  cb : RemeshingBaseKind
  ctag : Concurrency_tag_kind
  deriving Repr, DecidableEq

/-- Modelled from the spec: the third template parameter of CGAL's
`Triangulation_data_structure_3` (not under `src/`) is the concurrency tag and
defaults to `Sequential_tag` when omitted. -/
def Triangulation_data_structure_3_default_ctag : Concurrency_tag_kind :=
  Concurrency_tag_kind.Sequential_tag

/-- The data-structure instantiation the `Triangulation_3` base of
`Remeshing_triangulation_3` uses (source lines 98-104):
`Triangulation_data_structure_3<Remeshing_vertex_base<K,Vb>, Remeshing_cell_base<K,Cb>>`
with the concurrency tag omitted, so the default applies whatever
`Concurrency_tag` the class was given. -/
def remeshing_base_Tds (_ctag : Concurrency_tag_kind) : TdsArgs :=
  { vb := RemeshingBaseKind.RVb, cb := RemeshingBaseKind.RCb,
    ctag := Triangulation_data_structure_3_default_ctag }

/-- The nested `Tds` typedef of `Remeshing_triangulation_3` (source line 110):
`Triangulation_data_structure_3<RVb, RCb, Concurrency_tag>`, with the class's
`Concurrency_tag` passed explicitly. -/
def remeshing_nested_Tds (ctag : Concurrency_tag_kind) : TdsArgs :=
  { vb := RemeshingBaseKind.RVb, cb := RemeshingBaseKind.RCb, ctag := ctag }

/-- Claim C1: for every source triangulation, `build_remeshing_triangulation`
produces a target with exactly as many vertices and as many cells as the
source, and the cells' vertex-incidence and neighbor-adjacency structure is
carried over unchanged under the canonical (identity) relabeling, so the
incidence graphs of source and target are isomorphic. -/
theorem C1_clone_counts_and_isomorphism {P Q I I' R R' : Type} (conv : P → Q)
    (vdflt : VertexData Q) (cdflt : CellData I' R')
    (tr : Triang (VertexData P) (CellData I R))
    (remeshing_tr : Triang (VertexData Q) (CellData I' R')) :
    (build_remeshing_triangulation conv vdflt cdflt tr remeshing_tr).tds.vertices.length
        = tr.tds.vertices.length ∧
      (build_remeshing_triangulation conv vdflt cdflt tr remeshing_tr).tds.cells.length
        = tr.tds.cells.length ∧
      (build_remeshing_triangulation conv vdflt cdflt tr remeshing_tr).tds.cells.map
          (fun r => (r.vtx, r.nbr))
        = tr.tds.cells.map (fun r => (r.vtx, r.nbr)) := by
  refine ⟨?_, ?_, ?_⟩ <;>
    simp [build_remeshing_triangulation, copy_tds, Triang.clear, List.map_map,
      Function.comp]

/-- Claim C2: in both clone directions, the vertex the source's infinite vertex
maps to (the identity relabeling of `copy_tds`) is made the target's infinite
vertex by `set_infinite_vertex`, so the source infinite vertex maps to the
target infinite vertex and not to any finite vertex. -/
theorem C2_infinite_vertex_preserved {P Q I I' R R' : Type} (conv : P → Q)
    (conv' : Q → P) (vdflt : VertexData Q) (cdflt : CellData I' R')
    (vdflt' : VertexData P) (cdflt' : CellData I R)
    (tr : Triang (VertexData P) (CellData I R))
    (remeshing_tr : Triang (VertexData Q) (CellData I' R')) :
    (build_remeshing_triangulation conv vdflt cdflt tr remeshing_tr).infiniteVertex
        = tr.infiniteVertex ∧
      (build_from_remeshing_triangulation conv' vdflt' cdflt' remeshing_tr tr).infiniteVertex
        = remeshing_tr.infiniteVertex :=
  ⟨rfl, rfl⟩

/-- Claim C3 counterexample: the claim says both cell-converter variants copy
the source cell's subdomain index, but the preserving (public) `Cell_converter`
does not: at a concrete source cell with subdomain index 5 and a
default-constructed target with subdomain index 0, create leaves the target's
subdomain index at 0. -/
theorem C3_counterexample :
    decide
      ((Cell_converter.create (fun c => some c)
            (⟨0, 0, none, 0⟩ : CellData Int (Option (CellData Int Unit)))
            (⟨5, 7, (), 2⟩ : CellData Int Unit)).subdomainIndex
          = (⟨5, 7, (), 2⟩ : CellData Int Unit).subdomainIndex) = false := by
  decide

/-- Claim C3 amended: the fresh (`internal`) cell converter copies the source's
subdomain index in both create and update; the preserving (public) cell
converter copies the user info and the back-reference instead, and leaves the
target's subdomain index untouched (the default-constructed one in create, the
prior one in update). -/
theorem C3_subdomain_index_amended {I I' R R' R2 : Type}
    (cdflt : CellData I' R') (c_src : CellData I R) (c_tgt : CellData I' R')
    (ref : CellData I R → R2) (cdflt2 : CellData I R2) (c_tgt2 : CellData I R2) :
    (internal.Cell_converter.create cdflt c_src).subdomainIndex
        = c_src.subdomainIndex ∧
      (internal.Cell_converter.update c_src c_tgt).subdomainIndex
        = c_src.subdomainIndex ∧
      (Cell_converter.create ref cdflt2 c_src).subdomainIndex
        = cdflt2.subdomainIndex ∧
      (Cell_converter.create ref cdflt2 c_src).info = c_src.info ∧
      (Cell_converter.create ref cdflt2 c_src).inputCell = ref c_src ∧
      (Cell_converter.update ref c_src c_tgt2).subdomainIndex
        = c_tgt2.subdomainIndex ∧
      (Cell_converter.update ref c_src c_tgt2).info = c_src.info ∧
      (Cell_converter.update ref c_src c_tgt2).inputCell = ref c_src :=
  ⟨rfl, rfl, rfl, rfl, rfl, rfl, rfl, rfl⟩

/-- Claim C4 counterexample: the claim says every update operation also resets
the target's time stamp to the unset sentinel `-1`, but the fresh vertex
converter's update leaves a target time stamp of 5 unchanged (and 5 is not the
sentinel). -/
theorem C4_counterexample :
    decide
      ((internal.Vertex_converter.update (fun p : Int => p)
            (⟨1, 2, 3, 4⟩ : VertexData Int)
            (⟨9, 9, 9, 5⟩ : VertexData Int)).timeStamp = -1) = false := by
  decide

/-- Claim C4 amended: every create operation (vertex and cell, fresh and
preserving) resets the target's time stamp to the unset sentinel `-1`; every
update operation leaves the target's time stamp unchanged. -/
theorem C4_time_stamp_amended {P Q I I' R R' R2 : Type} (conv : P → Q)
    (vdflt : VertexData Q) (v_src : VertexData P) (v_tgt : VertexData Q)
    (cdflt : CellData I' R') (c_src : CellData I R) (c_tgt : CellData I' R')
    (ref : CellData I R → R2) (cdflt2 : CellData I R2) (c_tgt2 : CellData I R2) :
    (internal.Vertex_converter.create conv vdflt v_src).timeStamp = -1 ∧
      (Vertex_converter.create conv vdflt v_src).timeStamp = -1 ∧
      (internal.Cell_converter.create cdflt c_src).timeStamp = -1 ∧
      (Cell_converter.create ref cdflt2 c_src).timeStamp = -1 ∧
      (internal.Vertex_converter.update conv v_src v_tgt).timeStamp
        = v_tgt.timeStamp ∧
      (Vertex_converter.update conv v_src v_tgt).timeStamp = v_tgt.timeStamp ∧
      (internal.Cell_converter.update c_src c_tgt).timeStamp = c_tgt.timeStamp ∧
      (Cell_converter.update ref c_src c_tgt2).timeStamp = c_tgt2.timeStamp :=
  ⟨rfl, rfl, rfl, rfl, rfl, rfl, rfl, rfl⟩

/-- Claim C5 counterexample: the claim says the preserving vertex converter
carries both the source's dimension tag and the source's user info to the
target, but at a concrete source vertex with dimension 2 and info 7, create
yields a target whose dimension is 7 (the source info, not the source
dimension) and whose info is the default-constructed 0, not 7. -/
theorem C5_counterexample :
    decide
      ((Vertex_converter.create (fun p : Int => p)
              (⟨0, -1, 0, 0⟩ : VertexData Int)
              (⟨1, 2, 7, 3⟩ : VertexData Int)).dim
            = (⟨1, 2, 7, 3⟩ : VertexData Int).dim
          ∧ (Vertex_converter.create (fun p : Int => p)
              (⟨0, -1, 0, 0⟩ : VertexData Int)
              (⟨1, 2, 7, 3⟩ : VertexData Int)).info
            = (⟨1, 2, 7, 3⟩ : VertexData Int).info) = false := by
  decide

/-- Claim C5 amended: the preserving vertex converter writes the source's info
field into the target's dimension tag, in create and in update (the source
stores the feature dimension in its info, per the source comment); it does not
read the source's separate dimension field, and it never writes the target's
info field (create leaves the default-constructed info, update the prior one). -/
theorem C5_preserving_vertex_amended {P Q : Type} (conv : P → Q)
    (vdflt : VertexData Q) (v_src : VertexData P) (v_tgt : VertexData Q) :
    (Vertex_converter.create conv vdflt v_src).dim = v_src.info ∧
      (Vertex_converter.create conv vdflt v_src).info = vdflt.info ∧
      (Vertex_converter.create conv vdflt v_src).point = conv v_src.point ∧
      (Vertex_converter.update conv v_src v_tgt).dim = v_src.info ∧
      (Vertex_converter.update conv v_src v_tgt).info = v_tgt.info ∧
      (Vertex_converter.update conv v_src v_tgt).point = conv v_src.point :=
  ⟨rfl, rfl, rfl, rfl, rfl, rfl⟩

/-- Claim C6: for every source vertex, the fresh (`internal`) vertex converter's
create operation returns a target vertex whose dimension tag is 3 and whose
info is exactly the default-constructed info, independent of the source's info:
none of the source's user info is carried over. -/
theorem C6_fresh_create_dim3_no_info {P Q : Type} (conv : P → Q)
    (vdflt : VertexData Q) (v_src : VertexData P) :
    (internal.Vertex_converter.create conv vdflt v_src).dim = 3 ∧
      (internal.Vertex_converter.create conv vdflt v_src).info = vdflt.info ∧
      (internal.Vertex_converter.create conv vdflt v_src).point
        = conv v_src.point :=
  ⟨rfl, rfl, rfl⟩

/-- Claim C7: both in-place clone operations clear the target first: the result
is completely independent of whatever the target held before the call, and the
cleared target holds no vertices and no cells. -/
theorem C7_target_cleared_before_copy {P Q I I' R R' : Type} (conv : P → Q)
    (conv' : Q → P) (vdflt : VertexData Q) (cdflt : CellData I' R')
    (vdflt' : VertexData P) (cdflt' : CellData I R)
    (tr : Triang (VertexData P) (CellData I R))
    (remeshing_tr remeshing_tr2 : Triang (VertexData Q) (CellData I' R'))
    (tgt tgt2 : Triang (VertexData P) (CellData I R)) :
    build_remeshing_triangulation conv vdflt cdflt tr remeshing_tr
        = build_remeshing_triangulation conv vdflt cdflt tr remeshing_tr2 ∧
      remeshing_tr.clear.tds.vertices = [] ∧
      remeshing_tr.clear.tds.cells = [] ∧
      build_from_remeshing_triangulation conv' vdflt' cdflt' remeshing_tr tgt
        = build_from_remeshing_triangulation conv' vdflt' cdflt' remeshing_tr tgt2 ∧
      tgt.clear.tds.vertices = [] ∧
      tgt.clear.tds.cells = [] :=
  ⟨rfl, rfl, rfl, rfl, rfl, rfl⟩

/-- Claim C8: for every converter variant (vertex and cell, fresh and
preserving) and every source element, applying the update operation twice with
the same source element leaves the target in the same state as applying it
once. -/
theorem C8_update_idempotent {P Q I I' R R' R2 : Type} (conv : P → Q)
    (v_src : VertexData P) (v_tgt : VertexData Q)
    (c_src : CellData I R) (c_tgt : CellData I' R')
    (ref : CellData I R → R2) (c_tgt2 : CellData I R2) :
    internal.Vertex_converter.update conv v_src
          (internal.Vertex_converter.update conv v_src v_tgt)
        = internal.Vertex_converter.update conv v_src v_tgt ∧
      Vertex_converter.update conv v_src (Vertex_converter.update conv v_src v_tgt)
        = Vertex_converter.update conv v_src v_tgt ∧
      internal.Cell_converter.update c_src (internal.Cell_converter.update c_src c_tgt)
        = internal.Cell_converter.update c_src c_tgt ∧
      Cell_converter.update ref c_src (Cell_converter.update ref c_src c_tgt2)
        = Cell_converter.update ref c_src c_tgt2 :=
  ⟨rfl, rfl, rfl, rfl⟩

/-- Claim C9: `Default_remeshing_visitor` provides exactly the five hook points
(its hook list has five pairwise-distinct entries), and every call to any hook
returns the visitor state, the triangulation, and every argument unchanged: the
default implementation performs no work. -/
theorem C9_default_visitor_noop {Tr Tr2 E VH CO CN CH CH2 : Type}
    (self : Default_remeshing_visitor) (tr : Tr) (tr2 : Tr2) (e : E) (new_v : VH)
    (co : CO) (cn : CN) (c : CH) (c2 : CH2) :
    Default_remeshing_visitor.hooks.length = 5 ∧
      Default_remeshing_visitor.hooks.Nodup ∧
      self.before_split tr e = (self, tr, e) ∧
      self.after_split tr2 new_v = (self, tr2, new_v) ∧
      self.after_add_cell co cn = (self, co, cn) ∧
      self.before_flip c = (self, c) ∧
      self.after_flip c2 = (self, c2) :=
  ⟨rfl, by decide, rfl, rfl, rfl, rfl, rfl⟩

/-- Claim C10: the `Triangulation_3` base of `Remeshing_triangulation_3`
instantiates `Triangulation_data_structure_3` without the `Concurrency_tag`
argument, so it always gets the `Sequential_tag` default: with
`Parallel_tag` the data structure the base class operates on differs from the
publicly exposed nested `Tds` typedef, and the two agree only in the
`Sequential_tag` (default) case. -/
theorem C10_base_Tds_ignores_concurrency_tag :
    decide
        (remeshing_base_Tds Concurrency_tag_kind.Parallel_tag
          = remeshing_nested_Tds Concurrency_tag_kind.Parallel_tag) = false ∧
      remeshing_base_Tds Concurrency_tag_kind.Sequential_tag
        = remeshing_nested_Tds Concurrency_tag_kind.Sequential_tag ∧
      remeshing_base_Tds Concurrency_tag_kind.Parallel_tag
        = remeshing_nested_Tds Concurrency_tag_kind.Sequential_tag := by
  refine ⟨by decide, rfl, rfl⟩

end Tetrahedral_remeshing

end CGAL
